import Mathlib

/-!
A shallow embedding of the event-dispatch core of the jwm window manager
(`src/event.c`), together with theorems checking the natural-language
specification of that file against the code.

Conventions of the embedding:
* X server calls and calls into other jwm modules (client.c, dock.c, tray
  code, ...) are recorded as elements of the `Effect` type, in the order
  the C code issues them.
* The status bits of `ClientNode.state.status` that the claims touch are
  carried as the `StatusFlags` record of booleans.
* C `long`/`int` values are modelled as `Int`; `Window` identifiers as `Nat`.
  X `Time` arithmetic is modelled on `Int` without 32-bit wraparound, which
  coincides with the C arithmetic for the in-range timestamps the claims
  quantify over.
* Results of external calls that the dispatch logic branches on (for
  example the return value of `MoveClient`) are passed in as parameters.
-/

namespace JWM

/-- The border-action enumeration from jwm (`BorderActionType`).  The C value
packs resize-edge flag bits above the low nibble; `switch(action & 0x0F)`
dispatches on the base action, which is what the constructors encode
(`resize` keeps the edge bits as payload). -/
inductive BorderAction where
  | none
  | resize (edges : Nat)
  | move
  | menu
  | close
  | maximize
  | minimize
  deriving DecidableEq, Repr

/-- Button event type: `ButtonPress` or `ButtonRelease`. -/
inductive EvType where
  | press
  | release
  deriving DecidableEq, Repr

/-- The atoms that `HandleNetWMState` compares `event->data.l[1..2]` against;
`otherAtom` stands for every atom value that is none of the four. -/
inductive Atom where
  | netWMStateSticky
  | netWMStateMaxVert
  | netWMStateMaxHorz
  | netWMStateShaded
  | otherAtom
  deriving DecidableEq, Fintype, Repr

/-- The bits of `np->state.status` that the claims touch. -/
structure StatusFlags where
  sticky : Bool
  maximized : Bool
  shaded : Bool
  mapped : Bool
  noList : Bool
  deriving DecidableEq, Fintype, Repr

/-- The bits of `np->state.border` used by the button handlers. -/
structure BorderFlags where
  outline : Bool
  title : Bool
  deriving DecidableEq, Repr

/-- The fields of jwm's `ClientNode` record that the handlers in
`event.c` read or write. -/
structure ClientNode where
  window : Nat
  parent : Nat
  x : Int
  y : Int
  width : Int
  height : Int
  gravity : Int
  desktop : Int
  border : BorderFlags
  status : StatusFlags
  /-- whether `np->controller` is non-`NULL` (an interactive move/resize is
  in progress). -/
  hasController : Bool
  deriving DecidableEq, Repr

/-- The geometry bits of an `XConfigureRequestEvent`'s `value_mask`
(`CWX`, `CWY`, `CWWidth`, `CWHeight`). -/
structure CWMask where
  hasX : Bool
  hasY : Bool
  hasWidth : Bool
  hasHeight : Bool
  deriving DecidableEq, Repr

/-- An `XWindowChanges` record as filled in by `HandleConfigureRequest`. -/
structure WindowChanges where
  x : Int
  y : Int
  width : Int
  height : Int
  border_width : Int
  sibling : Nat
  stackMode : Int
  deriving DecidableEq, Repr

/-- Calls into the X server and into the other jwm modules, recorded in
program order. -/
inductive Effect where
  | controllerCancel (destroy : Bool)
  | configureWindow (win : Nat) (mask : CWMask) (wc : WindowChanges)
  | moveResizeWindow (win : Nat) (x y w h : Int)
  | writeState (win : Nat)
  | sendConfigureEvent (win : Nat)
  | removeClient (win : Nat)
  | unmapWindow (win : Nat)
  | updateTaskBar
  | updatePager
  | dockDestroy (win : Nat)
  | raiseClient (win : Nat)
  | focusClient (win : Nat)
  | shadeClient (win : Nat)
  | unshadeClient (win : Nat)
  | maximizeClient (win : Nat)
  | minimizeClient (win : Nat)
  | deleteClient (win : Nat)
  | resizeClient (win : Nat) (action : BorderAction) (x y : Int)
  | moveClient (win : Nat) (x y : Int)
  | showWindowMenu (win : Nat) (x y : Int)
  | showRootMenu (button : Nat) (x y : Int)
  | previousDesktop
  | nextDesktop
  | allowEvents
  | setClientLayer (win : Nat) (layer : Int)
  | setClientSticky (win : Nat) (value : Bool)
  | setClientDesktop (win : Nat) (value : Int)
  | setClientWithdrawn (win : Nat)
  | restoreClient (win : Nat)
  | restart
  | exitWM
  | changeDesktop (value : Int)
  | handleDockEvent
  | setMousePosition (x y : Int)
  deriving DecidableEq, Repr

/-- `FindClientByWindow`: registry lookup by primary window identifier. -/
def FindClientByWindow (reg : List ClientNode) (w : Nat) : Option ClientNode :=
  reg.find? (fun c => c.window == w)

/-- `FindClientByParent`: registry lookup by decoration (parent) window. -/
def FindClientByParent (reg : List ClientNode) (w : Nat) : Option ClientNode :=
  reg.find? (fun c => c.parent == w)

/-! ## `_NET_WM_STATE` (`HandleNetWMState`, event.c lines 787-861) -/

/-- Modelled from the spec: `SetClientSticky(np, b)` sets or clears the
sticky status flag of the client (client.c, outside `src/`). -/
def SetClientSticky (b : Bool) (s : StatusFlags) : StatusFlags :=
  { s with sticky := b }

/-- Modelled from the spec: `MaximizeClient` is "inherently a flip" — it
toggles the maximized status flag (client.c, outside `src/`). -/
def MaximizeClient (s : StatusFlags) : StatusFlags :=
  { s with maximized := !s.maximized }

/-- Modelled from the spec: `ShadeClient` sets the shaded status flag
(client.c, outside `src/`). -/
def ShadeClient (s : StatusFlags) : StatusFlags :=
  { s with shaded := true }

/-- Modelled from the spec: `UnshadeClient` clears the shaded status flag
(client.c, outside `src/`). -/
def UnshadeClient (s : StatusFlags) : StatusFlags :=
  { s with shaded := false }

/-- The `for(x = 1; x <= 2; x++)` loop of `HandleNetWMState`: whether one
payload atom names the sticky sub-state. -/
def atomIsStick (a : Atom) : Bool :=
  a == Atom.netWMStateSticky

/-- Whether one payload atom names the maximize sub-state
(`_NET_WM_STATE_MAXIMIZED_VERT` and `..._HORZ` both collapse to it). -/
def atomIsMaximize (a : Atom) : Bool :=
  a == Atom.netWMStateMaxVert || a == Atom.netWMStateMaxHorz

/-- Whether one payload atom names the shaded sub-state. -/
def atomIsShade (a : Atom) : Bool :=
  a == Atom.netWMStateShaded

/-- `HandleNetWMState` (event.c lines 787-861), restricted to its effect on
the status flags.  `action` is `event->data.l[0]`; `p1`, `p2` are the atom
payloads `event->data.l[1]`, `event->data.l[2]`. -/
def HandleNetWMState (action : Int) (p1 p2 : Atom) (s : StatusFlags) :
    StatusFlags :=
  let actionStick := atomIsStick p1 || atomIsStick p2
  let actionMaximize := atomIsMaximize p1 || atomIsMaximize p2
  let actionShade := atomIsShade p1 || atomIsShade p2
  if action = 0 then
    /- Remove -/
    let s := if actionStick then SetClientSticky false s else s
    let s := if actionMaximize && s.maximized then MaximizeClient s else s
    let s := if actionShade then UnshadeClient s else s
    s
  else if action = 1 then
    /- Add -/
    let s := if actionStick then SetClientSticky true s else s
    let s := if actionMaximize && !s.maximized then MaximizeClient s else s
    let s := if actionShade then ShadeClient s else s
    s
  else if action = 2 then
    /- Toggle -/
    let s :=
      if actionStick then
        if s.sticky then SetClientSticky false s else SetClientSticky true s
      else s
    let s := if actionMaximize then MaximizeClient s else s
    let s :=
      if actionShade then
        if s.shaded then UnshadeClient s else ShadeClient s
      else s
    s
  else
    /- unrecognized action codes are logged and ignored -/
    s

/-- C1: extended-hints state requests with action code 0 (remove) or
1 (add) are idempotent, and action code 2 (toggle) applied twice restores
the original state, for every combination of payload atoms and every
starting state. -/
theorem netWMState_remove_add_idempotent_toggle_involutive :
    ∀ (p1 p2 : Atom) (s : StatusFlags),
      HandleNetWMState 0 p1 p2 (HandleNetWMState 0 p1 p2 s)
          = HandleNetWMState 0 p1 p2 s
      ∧ HandleNetWMState 1 p1 p2 (HandleNetWMState 1 p1 p2 s)
          = HandleNetWMState 1 p1 p2 s
      ∧ HandleNetWMState 2 p1 p2 (HandleNetWMState 2 p1 p2 s) = s := by
  decide

/-! ## Configure requests (`HandleConfigureRequest`, event.c lines 405-474) -/

/-- An `XConfigureRequestEvent`, restricted to the fields the handler reads.
`mask` carries the geometry bits of `value_mask`. -/
structure XConfigureRequestEvent where
  window : Nat
  mask : CWMask
  x : Int
  y : Int
  width : Int
  height : Int
  detail : Int
  above : Nat
  border_width : Int
  deriving DecidableEq, Repr

/-- Replace the registry entry whose primary window matches `np.window`. -/
def updateClient (reg : List ClientNode) (np : ClientNode) : List ClientNode :=
  reg.map (fun c => if c.window == np.window then np else c)

/-- The X `Above` stack mode (`wc.stack_mode = Above`). -/
def Above : Int := 0

/-- The field-merge step of `HandleConfigureRequest` (event.c lines
419-435): a field is written into the record exactly when its `value_mask`
bit is set and its value differs from the current record; the boolean is
the `changed` flag. -/
def mergeConfigure (np : ClientNode) (ev : XConfigureRequestEvent) :
    ClientNode × Bool :=
  let changedW := ev.mask.hasWidth && ev.width != np.width
  let changedH := ev.mask.hasHeight && ev.height != np.height
  let changedX := ev.mask.hasX && ev.x != np.x
  let changedY := ev.mask.hasY && ev.y != np.y
  ({ np with
      width := if changedW then ev.width else np.width
      height := if changedH then ev.height else np.height
      x := if changedX then ev.x else np.x
      y := if changedY then ev.y else np.y },
   changedW || changedH || changedX || changedY)

/-- The unmanaged branch of `HandleConfigureRequest` (event.c lines
461-472): the request is passed through verbatim, width/height clamped so
they never exceed the root desktop's dimensions. -/
def configurePassThrough (rootWidth rootHeight : Int)
    (ev : XConfigureRequestEvent) : List Effect :=
  [Effect.configureWindow ev.window ev.mask
    { x := ev.x, y := ev.y,
      width := if ev.width > rootWidth then rootWidth else ev.width,
      height := if ev.height > rootHeight then rootHeight else ev.height,
      border_width := ev.border_width, sibling := ev.above,
      stackMode := ev.detail }]

/-- `HandleConfigureRequest` (event.c lines 405-474).  The border insets
(`GetBorderSize`, border.c) are the parameters `north south east west`;
`ConstrainSize` (place.c) — modelled from the spec: it applies size
constraints to width and height — is the parameter `constrain`. -/
def HandleConfigureRequest (reg : List ClientNode)
    (rootWidth rootHeight : Int) (north south east west : Int)
    (constrain : Int × Int → Int × Int) (ev : XConfigureRequestEvent) :
    List ClientNode × List Effect :=
  match FindClientByWindow reg ev.window with
  | some np =>
    if np.window = ev.window then
      let eff0 := if np.hasController then [Effect.controllerCancel false]
                  else []
      let mc := mergeConfigure np ev
      if !mc.2 then
        (updateClient reg mc.1, eff0)
      else
        let cs := constrain (mc.1.width, mc.1.height)
        let np3 := { mc.1 with width := cs.1, height := cs.2 }
        let wc1 : WindowChanges :=
          { x := np3.x, y := np3.y,
            width := np3.width + east + west,
            height := np3.height + north + south,
            border_width := 0, sibling := np.parent, stackMode := Above }
        let wc2 : WindowChanges :=
          { x := west, y := north, width := np3.width, height := np3.height,
            border_width := 0, sibling := np.parent, stackMode := Above }
        (updateClient reg np3,
         eff0 ++ [Effect.configureWindow np.parent ev.mask wc1,
                  Effect.configureWindow np.window ev.mask wc2])
    else
      (reg, configurePassThrough rootWidth rootHeight ev)
  | none => (reg, configurePassThrough rootWidth rootHeight ev)

/-- Whether an `Effect` is a call that touches the display. -/
def Effect.isDisplayCall : Effect → Bool
  | .configureWindow _ _ _ => true
  | .moveResizeWindow _ _ _ _ _ => true
  | .unmapWindow _ => true
  | .allowEvents => true
  | .writeState _ => true
  | .sendConfigureEvent _ => true
  | _ => false

/-- C2: for a managed window, a configure request merges only the fields
that are both flagged present and different from the current record; if no
field changed the handler issues no display call; if some field changed it
issues exactly one pair of geometry updates — the decoration window sized
to content plus insets and the content window at the inset offset. -/
theorem configureRequest_merge_pair (reg : List ClientNode)
    (rootWidth rootHeight north south east west : Int)
    (constrain : Int × Int → Int × Int) (ev : XConfigureRequestEvent)
    (np : ClientNode)
    (h1 : FindClientByWindow reg ev.window = some np)
    (h2 : np.window = ev.window) :
    (((ev.mask.hasX = false ∨ ev.x = np.x) →
        (mergeConfigure np ev).1.x = np.x)
      ∧ ((ev.mask.hasY = false ∨ ev.y = np.y) →
        (mergeConfigure np ev).1.y = np.y)
      ∧ ((ev.mask.hasWidth = false ∨ ev.width = np.width) →
        (mergeConfigure np ev).1.width = np.width)
      ∧ ((ev.mask.hasHeight = false ∨ ev.height = np.height) →
        (mergeConfigure np ev).1.height = np.height))
    ∧ ((mergeConfigure np ev).2 = false →
        ((HandleConfigureRequest reg rootWidth rootHeight north south east
            west constrain ev).2.filter Effect.isDisplayCall) = [])
    ∧ ((mergeConfigure np ev).2 = true →
        ((HandleConfigureRequest reg rootWidth rootHeight north south east
            west constrain ev).2.filter Effect.isDisplayCall)
          = [Effect.configureWindow np.parent ev.mask
              { x := (mergeConfigure np ev).1.x,
                y := (mergeConfigure np ev).1.y,
                width := (constrain ((mergeConfigure np ev).1.width,
                  (mergeConfigure np ev).1.height)).1 + east + west,
                height := (constrain ((mergeConfigure np ev).1.width,
                  (mergeConfigure np ev).1.height)).2 + north + south,
                border_width := 0, sibling := np.parent,
                stackMode := Above },
             Effect.configureWindow np.window ev.mask
              { x := west, y := north,
                width := (constrain ((mergeConfigure np ev).1.width,
                  (mergeConfigure np ev).1.height)).1,
                height := (constrain ((mergeConfigure np ev).1.width,
                  (mergeConfigure np ev).1.height)).2,
                border_width := 0, sibling := np.parent,
                stackMode := Above }]) := by
  refine ⟨⟨?_, ?_, ?_, ?_⟩, ?_, ?_⟩
  · rintro (h | h) <;> simp [mergeConfigure, h]
  · rintro (h | h) <;> simp [mergeConfigure, h]
  · rintro (h | h) <;> simp [mergeConfigure, h]
  · rintro (h | h) <;> simp [mergeConfigure, h]
  · intro hch
    by_cases hc : np.hasController <;>
      simp [HandleConfigureRequest, h1, h2, hch, hc, Effect.isDisplayCall]
  · intro hch
    by_cases hc : np.hasController <;>
      simp [HandleConfigureRequest, h1, h2, hch, hc, Effect.isDisplayCall]

/-- Sample client for the C2 witness: a managed window at (10,10) with
size 200×150. -/
def np0C2 : ClientNode :=
  { window := 7, parent := 8, x := 10, y := 10, width := 200, height := 150,
    gravity := 1, desktop := 0, border := { outline := true, title := true },
    status := { sticky := false, maximized := false, shaded := false,
                mapped := true, noList := false },
    hasController := false }

/-- Sample configure request for the C2 witness: only `CWWidth` is flagged,
with width 300. -/
def ev0C2 : XConfigureRequestEvent :=
  { window := 7,
    mask := { hasX := false, hasY := false, hasWidth := true,
              hasHeight := false },
    x := 0, y := 0, width := 300, height := 0, detail := 0, above := 0,
    border_width := 0 }

/-- C2 witness: the theorem applied to a width-only request on a window at
(10,10,200,150), with insets 4 on every side and a size-constraint function
that accepts the requested size. -/
theorem configureRequest_merge_pair_witness :
    FindClientByWindow [np0C2] ev0C2.window = some np0C2 ∧
    np0C2.window = ev0C2.window ∧
    ((((ev0C2.mask.hasX = false ∨ ev0C2.x = np0C2.x) →
        (mergeConfigure np0C2 ev0C2).1.x = np0C2.x)
      ∧ ((ev0C2.mask.hasY = false ∨ ev0C2.y = np0C2.y) →
        (mergeConfigure np0C2 ev0C2).1.y = np0C2.y)
      ∧ ((ev0C2.mask.hasWidth = false ∨ ev0C2.width = np0C2.width) →
        (mergeConfigure np0C2 ev0C2).1.width = np0C2.width)
      ∧ ((ev0C2.mask.hasHeight = false ∨ ev0C2.height = np0C2.height) →
        (mergeConfigure np0C2 ev0C2).1.height = np0C2.height))
    ∧ ((mergeConfigure np0C2 ev0C2).2 = false →
        ((HandleConfigureRequest [np0C2] 1024 768 4 4 4 4 (fun p => p)
            ev0C2).2.filter Effect.isDisplayCall) = [])
    ∧ ((mergeConfigure np0C2 ev0C2).2 = true →
        ((HandleConfigureRequest [np0C2] 1024 768 4 4 4 4 (fun p => p)
            ev0C2).2.filter Effect.isDisplayCall)
          = [Effect.configureWindow np0C2.parent ev0C2.mask
              { x := (mergeConfigure np0C2 ev0C2).1.x,
                y := (mergeConfigure np0C2 ev0C2).1.y,
                width := ((fun (p : Int × Int) => p)
                  ((mergeConfigure np0C2 ev0C2).1.width,
                   (mergeConfigure np0C2 ev0C2).1.height)).1 + 4 + 4,
                height := ((fun (p : Int × Int) => p)
                  ((mergeConfigure np0C2 ev0C2).1.width,
                   (mergeConfigure np0C2 ev0C2).1.height)).2 + 4 + 4,
                border_width := 0, sibling := np0C2.parent,
                stackMode := Above },
             Effect.configureWindow np0C2.window ev0C2.mask
              { x := 4, y := 4,
                width := ((fun (p : Int × Int) => p)
                  ((mergeConfigure np0C2 ev0C2).1.width,
                   (mergeConfigure np0C2 ev0C2).1.height)).1,
                height := ((fun (p : Int × Int) => p)
                  ((mergeConfigure np0C2 ev0C2).1.width,
                   (mergeConfigure np0C2 ev0C2).1.height)).2,
                border_width := 0, sibling := np0C2.parent,
                stackMode := Above }])) :=
  ⟨by decide, by decide,
   configureRequest_merge_pair [np0C2] 1024 768 4 4 4 4 (fun p => p) ev0C2
     np0C2 (by decide) (by decide)⟩

/-! ## `_NET_MOVERESIZE_WINDOW` (`HandleNetMoveResize`, event.c 725-782) -/

/-- Two's-complement bit test on a C `long`: `(n >> k) & 1`, written with
floor division and euclidean remainder, which agree with arithmetic shift
and masking on two's-complement integers. -/
def testBitI (n : Int) (k : Nat) : Bool :=
  (Int.fdiv n (2 ^ k)).emod 2 == 1

/-- Result of `HandleNetMoveResize`: the updated client record, the
effective gravity computed by the handler (its local `gravity` variable),
and the calls issued. -/
structure NetMoveResizeResult where
  np : ClientNode
  gravity : Int
  effects : List Effect
  deriving DecidableEq, Repr

/-- `HandleNetMoveResize` (event.c lines 725-782).  `l0 … l4` are
`event->data.l[0..4]`; `gravity = l0 & 0xFF` and `flags = l0 >> 8` are
written with `emod`/`fdiv`, which agree with the C operators on
two's-complement `long`s.  The border insets (`GetBorderSize`, border.c)
are parameters, and so is the gravity delta — modelled from the spec:
`GetGravityDelta` (client.c, outside `src/`) yields a gravity-dependent
correction `(deltax, deltay)`, with delta `(0,0)` for north-west gravity. -/
def HandleNetMoveResize (np : ClientNode) (l0 l1 l2 l3 l4 : Int)
    (north south east west : Int) (deltax deltay : Int) :
    NetMoveResizeResult :=
  let gravity := l0.emod 256
  let flags := Int.fdiv l0 256
  let x := if testBitI flags 0 then l1 else np.x
  let y := if testBitI flags 1 then l2 else np.y
  let width := if testBitI flags 2 then l3 else np.width
  let height := if testBitI flags 3 then l4 else np.height
  let gravity := if gravity = 0 then np.gravity else gravity
  let x := x - deltax
  let y := y - deltay
  let np2 := { np with x := x, y := y, width := width, height := height }
  { np := np2,
    gravity := gravity,
    effects :=
      [Effect.moveResizeWindow np.parent (np2.x - west) (np2.y - north)
        (np2.width + east + west) (np2.height + north + south),
       Effect.moveResizeWindow np.window west north np2.width np2.height,
       Effect.writeState np.window,
       Effect.sendConfigureEvent np.window] }

/-- C6: an extended-hints move-resize request retains every geometry field
whose flag bit is unset, replaces gravity 0 by the window's declared
gravity, corrects the requested position by the gravity delta before
writing it; with delta `(0,0)` (north-west) and both position flags set the
content window's final top-left equals the requested position independent
of the border insets, and a synthetic configure notification is sent. -/
theorem netMoveResize_gravity_correction (np : ClientNode)
    (l0 l1 l2 l3 l4 north south east west deltax deltay : Int) :
    (testBitI (Int.fdiv l0 256) 2 = false →
      (HandleNetMoveResize np l0 l1 l2 l3 l4 north south east west deltax
        deltay).np.width = np.width)
    ∧ (testBitI (Int.fdiv l0 256) 3 = false →
      (HandleNetMoveResize np l0 l1 l2 l3 l4 north south east west deltax
        deltay).np.height = np.height)
    ∧ (testBitI (Int.fdiv l0 256) 0 = false →
      (HandleNetMoveResize np l0 l1 l2 l3 l4 north south east west deltax
        deltay).np.x = np.x - deltax)
    ∧ (testBitI (Int.fdiv l0 256) 1 = false →
      (HandleNetMoveResize np l0 l1 l2 l3 l4 north south east west deltax
        deltay).np.y = np.y - deltay)
    ∧ (testBitI (Int.fdiv l0 256) 0 = true →
      (HandleNetMoveResize np l0 l1 l2 l3 l4 north south east west deltax
        deltay).np.x = l1 - deltax)
    ∧ (testBitI (Int.fdiv l0 256) 1 = true →
      (HandleNetMoveResize np l0 l1 l2 l3 l4 north south east west deltax
        deltay).np.y = l2 - deltay)
    ∧ (l0.emod 256 = 0 →
      (HandleNetMoveResize np l0 l1 l2 l3 l4 north south east west deltax
        deltay).gravity = np.gravity)
    ∧ (l0.emod 256 ≠ 0 →
      (HandleNetMoveResize np l0 l1 l2 l3 l4 north south east west deltax
        deltay).gravity = l0.emod 256)
    ∧ ((HandleNetMoveResize np l0 l1 l2 l3 l4 north south east west deltax
        deltay).effects =
        [Effect.moveResizeWindow np.parent
          ((HandleNetMoveResize np l0 l1 l2 l3 l4 north south east west
            deltax deltay).np.x - west)
          ((HandleNetMoveResize np l0 l1 l2 l3 l4 north south east west
            deltax deltay).np.y - north)
          ((HandleNetMoveResize np l0 l1 l2 l3 l4 north south east west
            deltax deltay).np.width + east + west)
          ((HandleNetMoveResize np l0 l1 l2 l3 l4 north south east west
            deltax deltay).np.height + north + south),
         Effect.moveResizeWindow np.window west north
          ((HandleNetMoveResize np l0 l1 l2 l3 l4 north south east west
            deltax deltay).np.width)
          ((HandleNetMoveResize np l0 l1 l2 l3 l4 north south east west
            deltax deltay).np.height),
         Effect.writeState np.window,
         Effect.sendConfigureEvent np.window])
    ∧ (deltax = 0 → deltay = 0 →
        testBitI (Int.fdiv l0 256) 0 = true →
        testBitI (Int.fdiv l0 256) 1 = true →
        (HandleNetMoveResize np l0 l1 l2 l3 l4 north south east west deltax
          deltay).np.x = l1 ∧
        (HandleNetMoveResize np l0 l1 l2 l3 l4 north south east west deltax
          deltay).np.y = l2) := by
  refine ⟨?_, ?_, ?_, ?_, ?_, ?_, ?_, ?_, ?_, ?_⟩
  · intro h; simp [HandleNetMoveResize, h]
  · intro h; simp [HandleNetMoveResize, h]
  · intro h; simp [HandleNetMoveResize, h]
  · intro h; simp [HandleNetMoveResize, h]
  · intro h; simp [HandleNetMoveResize, h]
  · intro h; simp [HandleNetMoveResize, h]
  · intro h; simp [HandleNetMoveResize, h]
  · intro h; simp [HandleNetMoveResize, h]
  · simp [HandleNetMoveResize]
  · intro h h2 h3 h4; simp [HandleNetMoveResize, h, h2, h3, h4]

/-- Sample client for the C6 witness: content size 200×100, north-west
gravity (code 1). -/
def np0C6 : ClientNode :=
  { window := 11, parent := 12, x := 30, y := 40, width := 200,
    height := 100, gravity := 1, desktop := 0,
    border := { outline := true, title := true },
    status := { sticky := false, maximized := false, shaded := false,
                mapped := true, noList := false },
    hasController := false }

/-- C6 witness: request with gravity code 1 and flag bits 0 and 1 set
(`l0 = 1 + 256·3 = 769`), requested position (50,50), no width/height
flags, borders 5 on every side, north-west delta (0,0); the content
window's final top-left is (50,50). -/
theorem netMoveResize_gravity_correction_witness :
    testBitI (Int.fdiv 769 256) 0 = true ∧
    testBitI (Int.fdiv 769 256) 1 = true ∧
    testBitI (Int.fdiv 769 256) 2 = false ∧
    ((HandleNetMoveResize np0C6 769 50 50 0 0 5 5 5 5 0 0).np.width
        = np0C6.width) ∧
    ((HandleNetMoveResize np0C6 769 50 50 0 0 5 5 5 5 0 0).np.x = 50 ∧
     (HandleNetMoveResize np0C6 769 50 50 0 0 5 5 5 5 0 0).np.y = 50) :=
  ⟨by decide, by decide, by decide,
   (netMoveResize_gravity_correction np0C6 769 50 50 0 0 5 5 5 5 0 0).1
     (by decide),
   ((netMoveResize_gravity_correction np0C6 769 50 50 0 0 5 5 5 5 0
      0).2.2.2.2.2.2.2.2.2 rfl rfl (by decide) (by decide))⟩

/-! ## Border buttons (`DispatchBorderButtonEvent`, event.c 1032-1099) -/

/-- An `XButtonEvent`, restricted to the fields the handlers read.
`mod1` is `event->state & Mod1Mask`. -/
structure XButtonEvent where
  window : Nat
  evtype : EvType
  button : Nat
  x : Int
  y : Int
  time : Int
  mod1 : Bool
  deriving DecidableEq, Repr

/-- The `static` locals of `DispatchBorderButtonEvent` (`lastClickTime`,
`lastX`, `lastY`, `doubleClickActive`): process-wide double-click tracker
state, shared by every client. -/
structure DCState where
  lastClickTime : Int
  lastX : Int
  lastY : Int
  doubleClickActive : Bool
  deriving DecidableEq, Repr

/-- `DispatchBorderButtonEvent` (event.c lines 1032-1099).  `borderActionF`
is `GetBorderActionType(np, ·, ·)` (border.c) and `moveResult` the return
value of `MoveClient` (move.c), both external; the `switch(action & 0x0F)`
is the match on the base action. -/
def DispatchBorderButtonEvent (doubleClickSpeed doubleClickDelta : Int)
    (borderActionF : Int → Int → BorderAction) (moveResult : Bool)
    (borderWidth titleHeight : Int) (np : ClientNode) (ev : XButtonEvent)
    (st : DCState) : DCState × List Effect :=
  match borderActionF ev.x ev.y with
  | BorderAction.resize edges =>
    if ev.evtype = EvType.press then
      (st, [Effect.resizeClient np.window (BorderAction.resize edges)
              ev.x ev.y])
    else (st, [])
  | BorderAction.move =>
    if ev.evtype = EvType.press then
      if st.doubleClickActive = true
          ∧ 0 < |ev.time - st.lastClickTime|
          ∧ |ev.time - st.lastClickTime| ≤ doubleClickSpeed
          ∧ |ev.x - st.lastX| ≤ doubleClickDelta
          ∧ |ev.y - st.lastY| ≤ doubleClickDelta then
        ({ st with doubleClickActive := false },
         [Effect.maximizeClient np.window])
      else
        if moveResult then
          ({ st with doubleClickActive := false },
           [Effect.moveClient np.window ev.x ev.y])
        else
          ({ lastClickTime := ev.time, lastX := ev.x, lastY := ev.y,
             doubleClickActive := true },
           [Effect.moveClient np.window ev.x ev.y])
    else (st, [])
  | BorderAction.menu =>
    if ev.evtype = EvType.press then
      let bsize := if np.border.outline then borderWidth else 0
      (st, [Effect.showWindowMenu np.window (np.x + ev.x - bsize)
              (np.y + ev.y - titleHeight - bsize)])
    else (st, [])
  | BorderAction.close =>
    if ev.evtype = EvType.release then (st, [Effect.deleteClient np.window])
    else (st, [])
  | BorderAction.maximize =>
    if ev.evtype = EvType.release then
      (st, [Effect.maximizeClient np.window])
    else (st, [])
  | BorderAction.minimize =>
    if ev.evtype = EvType.release then
      (st, [Effect.minimizeClient np.window])
    else (st, [])
  | BorderAction.none => (st, [])

/-- C3: from an idle tracker, a press on the move border action whose
interactive move is rejected arms the tracker with its own data; a second
press within the time window (strictly positive delta, at most the
configured speed) and within the pixel tolerance triggers the maximize
toggle exactly once and clears the tracker; a press outside either
threshold does not maximize and (when the move is rejected) arms a fresh
cycle with its own timestamp and coordinates. -/
theorem borderMove_doubleClick (doubleClickSpeed doubleClickDelta
      borderWidth titleHeight : Int)
    (baF : Int → Int → BorderAction) (mres2 : Bool)
    (np : ClientNode) (st0 st1 : DCState) (p1 p2 p3 : XButtonEvent)
    (ha1 : baF p1.x p1.y = BorderAction.move)
    (ha2 : baF p2.x p2.y = BorderAction.move)
    (ha3 : baF p3.x p3.y = BorderAction.move)
    (ht1 : p1.evtype = EvType.press)
    (ht2 : p2.evtype = EvType.press)
    (ht3 : p3.evtype = EvType.press)
    (h0 : st0.doubleClickActive = false)
    (hq1 : 0 < |p2.time - p1.time|)
    (hq2 : |p2.time - p1.time| ≤ doubleClickSpeed)
    (hq3 : |p2.x - p1.x| ≤ doubleClickDelta)
    (hq4 : |p2.y - p1.y| ≤ doubleClickDelta)
    (hout : ¬(st1.doubleClickActive = true
      ∧ 0 < |p3.time - st1.lastClickTime|
      ∧ |p3.time - st1.lastClickTime| ≤ doubleClickSpeed
      ∧ |p3.x - st1.lastX| ≤ doubleClickDelta
      ∧ |p3.y - st1.lastY| ≤ doubleClickDelta)) :
    (DispatchBorderButtonEvent doubleClickSpeed doubleClickDelta baF false
        borderWidth titleHeight np p1 st0
      = (⟨p1.time, p1.x, p1.y, true⟩,
         [Effect.moveClient np.window p1.x p1.y]))
    ∧ (DispatchBorderButtonEvent doubleClickSpeed doubleClickDelta baF
        mres2 borderWidth titleHeight np p2 ⟨p1.time, p1.x, p1.y, true⟩
      = (⟨p1.time, p1.x, p1.y, false⟩,
         [Effect.maximizeClient np.window]))
    ∧ (DispatchBorderButtonEvent doubleClickSpeed doubleClickDelta baF
        false borderWidth titleHeight np p3 st1
      = (⟨p3.time, p3.x, p3.y, true⟩,
         [Effect.moveClient np.window p3.x p3.y])) := by
  refine ⟨?_, ?_, ?_⟩
  · simp [DispatchBorderButtonEvent, ha1, ht1, h0]
  · simp [DispatchBorderButtonEvent, ha2, ht2, hq1, hq2, hq3, hq4]
  · simp only [DispatchBorderButtonEvent, ha3, ht3]
    simp only [if_pos rfl, if_neg hout, if_neg (Bool.false_ne_true)]
    simp

/-- Sample client for the C3 witness. -/
def npC3 : ClientNode :=
  { window := 21, parent := 22, x := 0, y := 0, width := 300, height := 200,
    gravity := 1, desktop := 0, border := { outline := true, title := true },
    status := { sticky := false, maximized := false, shaded := false,
                mapped := true, noList := false },
    hasController := false }

/-- C3 witness: speed 250 ms, tolerance 2 px; presses at times 100 and 150
at (10,10) on window 21 maximize it once; a press at time 1000 against an
idle tracker starts a fresh cycle. -/
theorem borderMove_doubleClick_witness :
    (DispatchBorderButtonEvent 250 2 (fun _ _ => BorderAction.move) false
        1 20 npC3 ⟨22, EvType.press, 1, 10, 10, 100, false⟩ ⟨0, 0, 0, false⟩
      = (⟨100, 10, 10, true⟩, [Effect.moveClient npC3.window 10 10]))
    ∧ (DispatchBorderButtonEvent 250 2 (fun _ _ => BorderAction.move) false
        1 20 npC3 ⟨22, EvType.press, 1, 10, 10, 150, false⟩
        ⟨100, 10, 10, true⟩
      = (⟨100, 10, 10, false⟩, [Effect.maximizeClient npC3.window]))
    ∧ (DispatchBorderButtonEvent 250 2 (fun _ _ => BorderAction.move) false
        1 20 npC3 ⟨22, EvType.press, 1, 10, 10, 1000, false⟩
        ⟨0, 0, 0, false⟩
      = (⟨1000, 10, 10, true⟩, [Effect.moveClient npC3.window 10 10])) :=
  borderMove_doubleClick 250 2 1 20 (fun _ _ => BorderAction.move) false
    npC3 ⟨0, 0, 0, false⟩ ⟨0, 0, 0, false⟩
    ⟨22, EvType.press, 1, 10, 10, 100, false⟩
    ⟨22, EvType.press, 1, 10, 10, 150, false⟩
    ⟨22, EvType.press, 1, 10, 10, 1000, false⟩
    rfl rfl rfl rfl rfl rfl rfl (by decide) (by decide) (by decide)
    (by decide) (by decide)

/-- First sample client for C4 (window 1, decoration 2). -/
def np1C4 : ClientNode :=
  { window := 1, parent := 2, x := 0, y := 0, width := 300, height := 200,
    gravity := 1, desktop := 0, border := { outline := true, title := true },
    status := { sticky := false, maximized := false, shaded := false,
                mapped := true, noList := false },
    hasController := false }

/-- Second sample client for C4 (window 3, decoration 4). -/
def np2C4 : ClientNode :=
  { window := 3, parent := 4, x := 0, y := 0, width := 300, height := 200,
    gravity := 1, desktop := 0, border := { outline := true, title := true },
    status := { sticky := false, maximized := false, shaded := false,
                mapped := true, noList := false },
    hasController := false }

/-- C4 counterexample: the double-click tracker is a `static` of
`DispatchBorderButtonEvent`, shared by all windows.  A first press on
window 1's move border at time 100, (10,10) (move rejected, tracker armed)
followed by a press on a *different* window (window 3) at time 150,
(10,10) — within speed 250 and tolerance 2 — maximizes window 3: the two
presses do combine across windows, so the claimed per-window locality is
false. -/
theorem borderMove_crossWindow_cex :
    np1C4.window ≠ np2C4.window
    ∧ (DispatchBorderButtonEvent 250 2 (fun _ _ => BorderAction.move) false
        1 20 np1C4 ⟨2, EvType.press, 1, 10, 10, 100, false⟩
        ⟨0, 0, 0, false⟩).1 = ⟨100, 10, 10, true⟩
    ∧ (DispatchBorderButtonEvent 250 2 (fun _ _ => BorderAction.move) false
        1 20 np2C4 ⟨4, EvType.press, 1, 10, 10, 150, false⟩
        ⟨100, 10, 10, true⟩).2
      = [Effect.maximizeClient np2C4.window] := by
  decide

/-- C4 amended: double-click detection state is process-wide, not
per-window: a qualifying first press on the move action of one window
(arming the tracker) followed by a press on the move action of a
*different* window within the time and pixel thresholds does trigger the
maximize of the second window. -/
theorem borderMove_crossWindow (speed delta bw th : Int)
    (baF1 baF2 : Int → Int → BorderAction) (mres2 : Bool)
    (np1 np2 : ClientNode) (st0 : DCState) (p1 p2 : XButtonEvent)
    (_hw : np1.window ≠ np2.window)
    (ha1 : baF1 p1.x p1.y = BorderAction.move)
    (ha2 : baF2 p2.x p2.y = BorderAction.move)
    (ht1 : p1.evtype = EvType.press) (ht2 : p2.evtype = EvType.press)
    (h0 : st0.doubleClickActive = false)
    (hq1 : 0 < |p2.time - p1.time|)
    (hq2 : |p2.time - p1.time| ≤ speed)
    (hq3 : |p2.x - p1.x| ≤ delta)
    (hq4 : |p2.y - p1.y| ≤ delta) :
    (DispatchBorderButtonEvent speed delta baF1 false bw th np1 p1 st0).1
      = ⟨p1.time, p1.x, p1.y, true⟩
    ∧ (DispatchBorderButtonEvent speed delta baF2 mres2 bw th np2 p2
        ⟨p1.time, p1.x, p1.y, true⟩).2
      = [Effect.maximizeClient np2.window] := by
  constructor
  · simp [DispatchBorderButtonEvent, ha1, ht1, h0]
  · simp [DispatchBorderButtonEvent, ha2, ht2, hq1, hq2, hq3, hq4]

/-- C4 amended-claim witness: the concrete cross-window double click of
the counterexample, derived through the amended theorem. -/
theorem borderMove_crossWindow_witness :
    (DispatchBorderButtonEvent 250 2 (fun _ _ => BorderAction.move) false
        1 20 np1C4 ⟨2, EvType.press, 1, 10, 10, 100, false⟩
        ⟨0, 0, 0, false⟩).1 = ⟨100, 10, 10, true⟩
    ∧ (DispatchBorderButtonEvent 250 2 (fun _ _ => BorderAction.move) false
        1 20 np2C4 ⟨4, EvType.press, 1, 10, 10, 150, false⟩
        ⟨100, 10, 10, true⟩).2
      = [Effect.maximizeClient np2C4.window] :=
  borderMove_crossWindow 250 2 1 20 (fun _ _ => BorderAction.move)
    (fun _ _ => BorderAction.move) false np1C4 np2C4 ⟨0, 0, 0, false⟩
    ⟨2, EvType.press, 1, 10, 10, 100, false⟩
    ⟨4, EvType.press, 1, 10, 10, 150, false⟩
    (by decide) rfl rfl rfl rfl rfl (by decide) (by decide) (by decide)
    (by decide)

/-! ## Button routing (`HandleButtonEvent`, event.c 251-320) -/

/-- `HandleButtonEvent` (event.c lines 251-320).  `focusClick` is
`focusModel == FOCUS_CLICK`; `borderActionF`, `moveResult` and
`rootMenuShown` are the results of the external calls
(`GetBorderActionType`, `MoveClient`, `ShowRootMenu`). -/
def HandleButtonEvent (reg : List ClientNode) (rootWindow : Nat)
    (focusClick : Bool) (doubleClickSpeed doubleClickDelta : Int)
    (borderActionF : ClientNode → Int → Int → BorderAction)
    (moveResult : Bool) (rootMenuShown : Bool)
    (borderWidth titleHeight : Int) (st : DCState) (ev : XButtonEvent) :
    DCState × List Effect :=
  match FindClientByParent reg ev.window with
  | some np =>
    let eff0 := [Effect.raiseClient np.window]
      ++ (if focusClick then [Effect.focusClient np.window] else [])
    let r :=
      if ev.button = 1 then
        DispatchBorderButtonEvent doubleClickSpeed doubleClickDelta
          (borderActionF np) moveResult borderWidth titleHeight np ev st
      else if ev.button = 2 then
        (st, [Effect.moveClient np.window ev.x ev.y])
      else if ev.button = 3 then
        let x := ev.x + np.x
        let y := ev.y + np.y
        let x := if np.border.outline then x - borderWidth else x
        let y := if np.border.outline then y - borderWidth else y
        let y := if np.border.title then y - titleHeight else y
        (st, [Effect.showWindowMenu np.window x y])
      else if ev.button = 4 then (st, [Effect.shadeClient np.window])
      else if ev.button = 5 then (st, [Effect.unshadeClient np.window])
      else (st, [])
    (r.1, eff0 ++ r.2 ++ [Effect.updatePager])
  | none =>
    if ev.window = rootWindow ∧ ev.evtype = EvType.press then
      let effs := [Effect.showRootMenu ev.button ev.x ev.y]
      let effs := effs ++
        (if rootMenuShown then []
         else if ev.button = 4 then [Effect.previousDesktop]
         else if ev.button = 5 then [Effect.nextDesktop]
         else [])
      (st, effs ++ [Effect.updatePager])
    else
      match FindClientByWindow reg ev.window with
      | some np =>
        let effs :=
          if ev.button = 1 ∨ ev.button = 2 ∨ ev.button = 3 then
            [Effect.raiseClient np.window]
            ++ (if focusClick then [Effect.focusClient np.window] else [])
            ++ (if ev.mod1 then [Effect.moveClient np.window ev.x ev.y]
                else [])
          else []
        (st, effs ++ [Effect.allowEvents, Effect.updatePager])
      | none => (st, [Effect.updatePager])

/-- C10: for a button event on a client's decoration window, button 4
shades the client and button 5 unshades it, on the press event and on the
release event alike — these branches are not gated on the event type. -/
theorem buttonEvent_shade_wheel_both_types (reg : List ClientNode)
    (rootWindow : Nat) (focusClick : Bool)
    (doubleClickSpeed doubleClickDelta : Int)
    (borderActionF : ClientNode → Int → Int → BorderAction)
    (moveResult rootMenuShown : Bool) (borderWidth titleHeight : Int)
    (st : DCState) (ev : XButtonEvent) (np : ClientNode)
    (hfind : FindClientByParent reg ev.window = some np) :
    (ev.button = 4 →
      Effect.shadeClient np.window ∈
        (HandleButtonEvent reg rootWindow focusClick doubleClickSpeed
          doubleClickDelta borderActionF moveResult rootMenuShown
          borderWidth titleHeight st
          { ev with evtype := EvType.press }).2
      ∧ Effect.shadeClient np.window ∈
        (HandleButtonEvent reg rootWindow focusClick doubleClickSpeed
          doubleClickDelta borderActionF moveResult rootMenuShown
          borderWidth titleHeight st
          { ev with evtype := EvType.release }).2)
    ∧ (ev.button = 5 →
      Effect.unshadeClient np.window ∈
        (HandleButtonEvent reg rootWindow focusClick doubleClickSpeed
          doubleClickDelta borderActionF moveResult rootMenuShown
          borderWidth titleHeight st
          { ev with evtype := EvType.press }).2
      ∧ Effect.unshadeClient np.window ∈
        (HandleButtonEvent reg rootWindow focusClick doubleClickSpeed
          doubleClickDelta borderActionF moveResult rootMenuShown
          borderWidth titleHeight st
          { ev with evtype := EvType.release }).2) := by
  constructor
  · intro hb
    constructor <;> simp [HandleButtonEvent, hfind, hb]
  · intro hb
    constructor <;> simp [HandleButtonEvent, hfind, hb]

/-- Sample client for the C10 witness (window 31, decoration 32). -/
def npC10 : ClientNode :=
  { window := 31, parent := 32, x := 0, y := 0, width := 300, height := 200,
    gravity := 1, desktop := 0, border := { outline := true, title := true },
    status := { sticky := false, maximized := false, shaded := false,
                mapped := true, noList := false },
    hasController := false }

/-- C10 witness: a button-4 event on decoration window 32 shades window 31
on both press and release. -/
theorem buttonEvent_shade_wheel_both_types_witness :
    Effect.shadeClient npC10.window ∈
      (HandleButtonEvent [npC10] 0 true 250 2 (fun _ _ _ => BorderAction.none)
        false false 1 20 ⟨0, 0, 0, false⟩
        { window := 32, evtype := EvType.press, button := 4, x := 3, y := 3,
          time := 100, mod1 := false }).2
    ∧ Effect.shadeClient npC10.window ∈
      (HandleButtonEvent [npC10] 0 true 250 2 (fun _ _ _ => BorderAction.none)
        false false 1 20 ⟨0, 0, 0, false⟩
        { window := 32, evtype := EvType.release, button := 4, x := 3, y := 3,
          time := 100, mod1 := false }).2 :=
  (buttonEvent_shade_wheel_both_types [npC10] 0 true 250 2
    (fun _ _ _ => BorderAction.none) false false 1 20 ⟨0, 0, 0, false⟩
    { window := 32, evtype := EvType.press, button := 4, x := 3, y := 3,
      time := 100, mod1 := false } npC10 (by decide)).1 rfl

/-! ## Motion coalescing (`ProcessEvent` 211-214, `DiscardMotionEvents`
228-239) -/

/-- A queued X event, restricted to what the motion/unmap/destroy queue
scans inspect: kind, source window, motion coordinates and the
`is_hint` flag. -/
inductive XEvent where
  | motion (window : Nat) (x y xRoot yRoot : Int) (isHint : Bool)
  | destroyNotify (window : Nat)
  | otherEvent (window : Nat) (kind : Nat)
  deriving DecidableEq, Repr

/-- Whether a queued event is a `MotionNotify`. -/
def XEvent.isMotion : XEvent → Bool
  | .motion _ _ _ _ _ _ => true
  | _ => false

/-- The source window of a queued event. -/
def XEvent.window : XEvent → Nat
  | .motion w _ _ _ _ _ => w
  | .destroyNotify w => w
  | .otherEvent w _ => w

/-- `xmotion.x_root` of a queued event (0 for non-motion events). -/
def XEvent.mxRoot : XEvent → Int
  | .motion _ _ _ xr _ _ => xr
  | _ => 0

/-- `xmotion.y_root` of a queued event (0 for non-motion events). -/
def XEvent.myRoot : XEvent → Int
  | .motion _ _ _ _ yr _ => yr
  | _ => 0

/-- `JXCheckTypedEvent(display, MotionNotify, …)`: remove the first queued
`MotionNotify` event, if any, returning it and the rest of the queue. -/
def checkTypedMotion : List XEvent → Option (XEvent × List XEvent)
  | [] => none
  | e :: rest =>
    if e.isMotion then some (e, rest)
    else
      match checkTypedMotion rest with
      | none => none
      | some (m, q) => some (m, e :: q)

/-- Each successful `checkTypedMotion` strictly shrinks the queue. -/
theorem checkTypedMotion_length :
    ∀ (q : List XEvent) (m : XEvent) (q' : List XEvent),
      checkTypedMotion q = some (m, q') → q'.length < q.length := by
  intro q
  induction q with
  | nil => intro m q' h; simp [checkTypedMotion] at h
  | cons e rest ih =>
    intro m q' h
    by_cases he : e.isMotion
    · simp only [checkTypedMotion, he, if_pos] at h
      obtain ⟨-, rfl⟩ := Prod.mk.injEq .. ▸ Option.some.injEq .. ▸ h
      simp
    · simp only [checkTypedMotion, he, Bool.false_eq_true, if_neg,
        not_false_iff] at h
      rcases hrec : checkTypedMotion rest with _ | ⟨m2, q2⟩
      · rw [hrec] at h; simp at h
      · rw [hrec] at h
        simp only [Option.some.injEq, Prod.mk.injEq] at h
        have := ih m2 q2 hrec
        rw [← h.2]
        simp only [List.length_cons]
        omega

/-- The loop `while(JXCheckTypedEvent(display, MotionNotify, event));`
(event.c line 212), with an explicit fuel bounding the iteration count;
each iteration strictly shrinks the queue (`checkTypedMotion_length`), so
fuel `q.length` always reaches the loop's exit condition
(`drainMotions_fixpoint`). -/
def drainMotionsFuel : Nat → XEvent → List XEvent → XEvent × List XEvent
  | 0, ev, q => (ev, q)
  | Nat.succ n, ev, q =>
    match checkTypedMotion q with
    | none => (ev, q)
    | some (m, q') => drainMotionsFuel n m q'

/-- The motion-draining loop of `ProcessEvent`, fueled by the queue
length. -/
def drainMotions (ev : XEvent) (q : List XEvent) : XEvent × List XEvent :=
  drainMotionsFuel q.length ev q

/-- Fuel `q.length` reaches the loop's fixpoint: after `drainMotions` no
queued `MotionNotify` remains. -/
theorem drainMotions_fixpoint (ev : XEvent) (q : List XEvent) :
    checkTypedMotion (drainMotions ev q).2 = none := by
  suffices h : ∀ (fuel : Nat) (ev : XEvent) (q : List XEvent),
      q.length ≤ fuel →
      checkTypedMotion (drainMotionsFuel fuel ev q).2 = none by
    exact h q.length ev q le_rfl
  intro fuel
  induction fuel with
  | zero =>
    intro ev q hq
    have : q = [] := List.eq_nil_of_length_eq_zero (Nat.le_zero.mp hq)
    subst this
    simp [drainMotionsFuel, checkTypedMotion]
  | succ n ih =>
    intro ev q hq
    rcases hc : checkTypedMotion q with _ | ⟨m, q'⟩
    · simp [drainMotionsFuel, hc]
    · have hlen := checkTypedMotion_length q m q' hc
      simp only [drainMotionsFuel, hc]
      exact ih m q' (by omega)

/-- The `MotionNotify` case of `ProcessEvent` (event.c lines 211-214): all
queued motion events are drained, keeping the most recent, and
`HandleMotionNotify` is dispatched once on it.  The first component is the
list of dispatched motion events. -/
def ProcessEventMotion (ev : XEvent) (q : List XEvent) :
    List XEvent × List XEvent :=
  ((drainMotions ev q).1 :: [], (drainMotions ev q).2)

/-- `DiscardMotionEvents` (event.c lines 228-239), fueled like
`drainMotions`: every queued motion event is drained and updates the mouse
cache; the kept event is replaced only by motion events whose source
window is `w`. -/
def DiscardMotionEventsFuel :
    Nat → XEvent → Nat → List XEvent → XEvent × List XEvent × List Effect
  | 0, ev, _, q => (ev, q, [])
  | Nat.succ n, ev, w, q =>
    match checkTypedMotion q with
    | none => (ev, q, [])
    | some (temp, q') =>
      let kept := if temp.window = w then temp else ev
      let r := DiscardMotionEventsFuel n kept w q'
      (r.1, r.2.1,
       Effect.setMousePosition temp.mxRoot temp.myRoot :: r.2.2)

/-- `DiscardMotionEvents` (event.c lines 228-239). -/
def DiscardMotionEvents (ev : XEvent) (w : Nat) (q : List XEvent) :
    XEvent × List XEvent × List Effect :=
  DiscardMotionEventsFuel q.length ev w q

/-- Draining an all-motion queue keeps exactly its last element and
empties the queue. -/
theorem drainMotions_all_motion :
    ∀ (q : List XEvent) (ev m : XEvent),
      (∀ e ∈ q, e.isMotion = true) → m.isMotion = true →
      drainMotions ev (q ++ [m]) = (m, []) := by
  intro q
  induction q with
  | nil =>
    intro ev m _ hm
    simp [drainMotions, drainMotionsFuel, checkTypedMotion, hm]
  | cons e rest ih =>
    intro ev m hq hm
    have he : e.isMotion = true := hq e (List.mem_cons_self e rest)
    have hrest : ∀ x ∈ rest, x.isMotion = true :=
      fun x hx => hq x (List.mem_cons_of_mem e hx)
    have : drainMotions ev ((e :: rest) ++ [m])
        = drainMotionsFuel ((rest ++ [m]).length) e (rest ++ [m]) := by
      simp [drainMotions, drainMotionsFuel, checkTypedMotion, he,
        List.length_append]
    rw [this]
    have := ih e m hrest hm
    simpa [drainMotions] using this

/-- Discarding over an all-motion queue for window `w` keeps exactly its
last element, empties the queue, and updates the mouse cache once per
drained event. -/
theorem discardMotions_all_motion :
    ∀ (q : List XEvent) (ev m : XEvent) (w : Nat),
      (∀ e ∈ q, e.isMotion = true ∧ e.window = w) →
      m.isMotion = true → m.window = w →
      DiscardMotionEvents ev w (q ++ [m])
        = (m, [],
           (q ++ [m]).map (fun e => Effect.setMousePosition e.mxRoot
             e.myRoot)) := by
  intro q
  induction q with
  | nil =>
    intro ev m w _ hm hw
    simp [DiscardMotionEvents, DiscardMotionEventsFuel, checkTypedMotion,
      hm, hw]
  | cons e rest ih =>
    intro ev m w hq hm hw
    have he := hq e (List.mem_cons_self e rest)
    have hrest : ∀ x ∈ rest, x.isMotion = true ∧ x.window = w :=
      fun x hx => hq x (List.mem_cons_of_mem e hx)
    have step : DiscardMotionEvents ev w ((e :: rest) ++ [m])
        = (let r := DiscardMotionEventsFuel ((rest ++ [m]).length) e w
             (rest ++ [m])
           (r.1, r.2.1,
            Effect.setMousePosition e.mxRoot e.myRoot :: r.2.2)) := by
      simp [DiscardMotionEvents, DiscardMotionEventsFuel, checkTypedMotion,
        he.1, he.2, List.length_append]
    rw [step]
    have hres := ih e m w hrest hm hw
    simp only [DiscardMotionEvents, List.length_append,
      List.length_singleton] at hres
    simp [hres]

/-- C5: with five motion events for window `w` queued (and a motion event
for `w` in hand), the dispatcher drains them all and dispatches exactly
one motion event — the last of the queue; `DiscardMotionEvents` likewise
keeps only the most recent queued motion event for `w`, updating the
mouse-position cache for every drained event. -/
theorem motion_coalescing (ev m1 m2 m3 m4 m5 : XEvent) (w : Nat)
    (h1 : m1.isMotion = true) (h2 : m2.isMotion = true)
    (h3 : m3.isMotion = true) (h4 : m4.isMotion = true)
    (h5 : m5.isMotion = true)
    (hw1 : m1.window = w) (hw2 : m2.window = w) (hw3 : m3.window = w)
    (hw4 : m4.window = w) (hw5 : m5.window = w) :
    ProcessEventMotion ev [m1, m2, m3, m4, m5] = ([m5], [])
    ∧ DiscardMotionEvents ev w [m1, m2, m3, m4, m5]
      = (m5, [],
         [m1, m2, m3, m4, m5].map
           (fun e => Effect.setMousePosition e.mxRoot e.myRoot)) := by
  constructor
  · have hall : ∀ e ∈ [m1, m2, m3, m4], e.isMotion = true := by
      intro e he
      simp only [List.mem_cons, List.not_mem_nil, or_false] at he
      rcases he with rfl | rfl | rfl | rfl <;> assumption
    have hd := drainMotions_all_motion [m1, m2, m3, m4] ev m5 hall h5
    have hlist : [m1, m2, m3, m4] ++ [m5] = [m1, m2, m3, m4, m5] := rfl
    rw [hlist] at hd
    simp [ProcessEventMotion, hd]
  · have hall : ∀ e ∈ [m1, m2, m3, m4], e.isMotion = true ∧ e.window = w := by
      intro e he
      simp only [List.mem_cons, List.not_mem_nil, or_false] at he
      rcases he with rfl | rfl | rfl | rfl <;> exact ⟨by assumption, by
        assumption⟩
    have hd := discardMotions_all_motion [m1, m2, m3, m4] ev m5 w hall h5 hw5
    have hlist : [m1, m2, m3, m4] ++ [m5] = [m1, m2, m3, m4, m5] := rfl
    rw [hlist] at hd
    exact hd

/-- C5 witness: five concrete motion events for window 9; the single
dispatched event is the fifth, with its own coordinates (50, 60). -/
theorem motion_coalescing_witness :
    ProcessEventMotion (XEvent.motion 9 0 0 0 0 false)
      [XEvent.motion 9 1 1 10 20 false, XEvent.motion 9 2 2 20 30 false,
       XEvent.motion 9 3 3 30 40 false, XEvent.motion 9 4 4 40 50 false,
       XEvent.motion 9 5 5 50 60 false]
      = ([XEvent.motion 9 5 5 50 60 false], [])
    ∧ DiscardMotionEvents (XEvent.motion 9 0 0 0 0 false) 9
      [XEvent.motion 9 1 1 10 20 false, XEvent.motion 9 2 2 20 30 false,
       XEvent.motion 9 3 3 30 40 false, XEvent.motion 9 4 4 40 50 false,
       XEvent.motion 9 5 5 50 60 false]
      = (XEvent.motion 9 5 5 50 60 false, [],
         [XEvent.motion 9 1 1 10 20 false, XEvent.motion 9 2 2 20 30 false,
          XEvent.motion 9 3 3 30 40 false, XEvent.motion 9 4 4 40 50 false,
          XEvent.motion 9 5 5 50 60 false].map
           (fun e => Effect.setMousePosition e.mxRoot e.myRoot)) :=
  motion_coalescing (XEvent.motion 9 0 0 0 0 false)
    (XEvent.motion 9 1 1 10 20 false) (XEvent.motion 9 2 2 20 30 false)
    (XEvent.motion 9 3 3 30 40 false) (XEvent.motion 9 4 4 40 50 false)
    (XEvent.motion 9 5 5 50 60 false) 9
    rfl rfl rfl rfl rfl rfl rfl rfl rfl rfl

/-! ## Unmap / destroy (`HandleUnmapNotify` 965-1001,
`HandleDestroyNotify` 1005-1028) -/

/-- Whether a queued event is a `DestroyNotify` for window `w`. -/
def XEvent.isDestroyFor (w : Nat) : XEvent → Bool
  | .destroyNotify dw => dw == w
  | _ => false

/-- `JXCheckTypedWindowEvent(display, w, DestroyNotify, …)`: remove the
first queued `DestroyNotify` event for window `w`, if any. -/
def checkTypedWindowDestroy (w : Nat) :
    List XEvent → Option (XEvent × List XEvent)
  | [] => none
  | e :: rest =>
    if e.isDestroyFor w then some (e, rest)
    else
      match checkTypedWindowDestroy w rest with
      | none => none
      | some (d, q) => some (d, e :: q)

/-- The event found by `checkTypedWindowDestroy` is a `DestroyNotify` for
the requested window. -/
theorem checkTypedWindowDestroy_window :
    ∀ (q : List XEvent) (w : Nat) (e : XEvent) (q' : List XEvent),
      checkTypedWindowDestroy w q = some (e, q') → e.window = w := by
  intro q
  induction q with
  | nil => intro w e q' h; simp [checkTypedWindowDestroy] at h
  | cons a rest ih =>
    intro w e q' h
    by_cases ha : a.isDestroyFor w
    · simp only [checkTypedWindowDestroy, ha, if_pos] at h
      obtain ⟨rfl, -⟩ := Prod.mk.injEq .. ▸ Option.some.injEq .. ▸ h
      cases a with
      | destroyNotify dw =>
        simp [XEvent.isDestroyFor] at ha
        simp [XEvent.window, ha]
      | motion _ _ _ _ _ _ => simp [XEvent.isDestroyFor] at ha
      | otherEvent _ _ => simp [XEvent.isDestroyFor] at ha
    · simp only [checkTypedWindowDestroy, ha, Bool.false_eq_true, if_neg,
        not_false_iff] at h
      rcases hrec : checkTypedWindowDestroy w rest with _ | ⟨d, q2⟩
      · rw [hrec] at h; simp at h
      · rw [hrec] at h
        simp only [Option.some.injEq, Prod.mk.injEq] at h
        exact h.1 ▸ ih w d q2 hrec

/-- `HandleDestroyNotify` (event.c lines 1005-1028).  `dockResult` is the
return value of `HandleDockDestroy` (dock.c, external).  Returns the
updated registry, the calls issued, and the handler's `int` result. -/
def HandleDestroyNotify (dockResult : Nat → Bool) (reg : List ClientNode)
    (w : Nat) : List ClientNode × List Effect × Bool :=
  match FindClientByWindow reg w with
  | some np =>
    if np.window = w then
      (reg.filter (fun c => c.window != np.window),
       (if np.hasController then [Effect.controllerCancel true] else [])
         ++ [Effect.removeClient np.window],
       true)
    else (reg, [], false)
  | none => (reg, [Effect.dockDestroy w], dockResult w)

/-- `HandleUnmapNotify` (event.c lines 965-1001): when a `DestroyNotify`
for the same window is already queued it is consumed and handled instead;
otherwise the controller is invoked with the destroy flag and, if the
window was mapped, the decoration is unmapped and the state written.
Returns the updated registry, remaining queue, and the calls issued. -/
def HandleUnmapNotify (dockResult : Nat → Bool) (reg : List ClientNode)
    (q : List XEvent) (w : Nat) :
    List ClientNode × List XEvent × List Effect :=
  match FindClientByWindow reg w with
  | some np =>
    if np.window = w then
      match checkTypedWindowDestroy np.window q with
      | some (e, q') =>
        let r := HandleDestroyNotify dockResult reg e.window
        (r.1, q', r.2.1)
      | none =>
        let eff0 :=
          if np.hasController then [Effect.controllerCancel true] else []
        if np.status.mapped then
          (updateClient reg
            { np with status := { np.status with mapped := false } },
           q,
           eff0 ++ [Effect.unmapWindow np.parent,
                    Effect.writeState np.window, Effect.updateTaskBar,
                    Effect.updatePager])
        else (reg, q, eff0)
    else (reg, q, [])
  | none => (reg, q, [Effect.dockDestroy w])

/-- C8: an unmap notification for a managed window with a destroy
notification for the same window already queued is handled as a single
destroy — the queued destroy event is consumed, the controller is invoked
with the destroy flag, and the client is removed exactly once; none of the
unmap-transition calls (unmap decoration, write state) is issued. -/
theorem unmap_then_destroy_single (dockResult : Nat → Bool)
    (reg : List ClientNode) (q : List XEvent) (w : Nat) (np : ClientNode)
    (e : XEvent) (q' : List XEvent)
    (hfind : FindClientByWindow reg w = some np)
    (hwin : np.window = w)
    (hq : checkTypedWindowDestroy w q = some (e, q')) :
    HandleUnmapNotify dockResult reg q w
      = (reg.filter (fun c => c.window != w), q',
         (if np.hasController then [Effect.controllerCancel true] else [])
           ++ [Effect.removeClient w])
    ∧ ((HandleUnmapNotify dockResult reg q w).2.2.count
        (Effect.removeClient w)) = 1
    ∧ Effect.unmapWindow np.parent ∉ (HandleUnmapNotify dockResult reg q
        w).2.2
    ∧ Effect.writeState np.window ∉ (HandleUnmapNotify dockResult reg q
        w).2.2
    ∧ (np.hasController →
        (HandleUnmapNotify dockResult reg q w).2.2
          = [Effect.controllerCancel true, Effect.removeClient w]) := by
  have hew : e.window = w := checkTypedWindowDestroy_window q w e q' hq
  have hmain : HandleUnmapNotify dockResult reg q w
      = (reg.filter (fun c => c.window != w), q',
         (if np.hasController then [Effect.controllerCancel true] else [])
           ++ [Effect.removeClient w]) := by
    simp only [HandleUnmapNotify, hfind, hwin, if_pos]
    rw [hq]
    simp only [HandleDestroyNotify, hew, hfind, hwin, if_pos]
  refine ⟨hmain, ?_, ?_, ?_, ?_⟩ <;> rw [hmain] <;>
    by_cases hc : np.hasController <;> simp [hc, hwin]

/-- Sample client for the C8 witness (window 41, decoration 42, with an
interactive operation in progress). -/
def npC8 : ClientNode :=
  { window := 41, parent := 42, x := 0, y := 0, width := 300, height := 200,
    gravity := 1, desktop := 0, border := { outline := true, title := true },
    status := { sticky := false, maximized := false, shaded := false,
                mapped := true, noList := false },
    hasController := true }

/-- C8 witness: with a `DestroyNotify` for window 41 queued behind an
unrelated event, the unmap handler consumes it, cancels the controller
with the destroy flag and removes the client once. -/
theorem unmap_then_destroy_single_witness :
    FindClientByWindow [npC8] 41 = some npC8 ∧
    HandleUnmapNotify (fun _ => false) [npC8]
        [XEvent.otherEvent 99 7, XEvent.destroyNotify 41] 41
      = ([], [XEvent.otherEvent 99 7],
         [Effect.controllerCancel true, Effect.removeClient 41]) ∧
    (HandleUnmapNotify (fun _ => false) [npC8]
        [XEvent.otherEvent 99 7, XEvent.destroyNotify 41] 41).2.2.count
      (Effect.removeClient 41) = 1 := by
  have h := unmap_then_destroy_single (fun _ => false) [npC8]
    [XEvent.otherEvent 99 7, XEvent.destroyNotify 41] 41 npC8
    (XEvent.destroyNotify 41) [XEvent.otherEvent 99 7]
    (by decide) (by decide) (by decide)
  refine ⟨by decide, ?_, h.2.1⟩
  rw [h.1]
  decide

/-! ## Client messages (`HandleClientMessage`, event.c 598-720) -/

/-- The client-message protocol identifiers `event->message_type` is
compared against (each an interned atom resolved at startup);
`unknownMsg` stands for every unrecognized identifier. -/
inductive MsgType where
  | winState
  | winLayer
  | wmChangeState
  | netActiveWindow
  | netWMDesktop
  | netCloseWindow
  | netMoveResize
  | netWMState
  | jwmRestart
  | jwmExit
  | netCurrentDesktop
  | trayOpcode
  | unknownMsg
  deriving DecidableEq, Repr

/-- An `XClientMessageEvent`: target window, message type, and the five
`data.l` fields. -/
structure XClientMessageEvent where
  window : Nat
  mtype : MsgType
  l0 : Int
  l1 : Int
  l2 : Int
  l3 : Int
  l4 : Int
  deriving DecidableEq, Repr

/-- Distinct integer identifiers standing for the interned
`_NET_WM_STATE_*` atoms (`atoms[ATOM_NET_WM_STATE_*]`); the actual X atom
values are opaque, only their distinctness matters. -/
def ATOM_NET_WM_STATE_STICKY : Int := 101

/-- Interned `_NET_WM_STATE_MAXIMIZED_VERT` identifier. -/
def ATOM_NET_WM_STATE_MAXIMIZED_VERT : Int := 102

/-- Interned `_NET_WM_STATE_MAXIMIZED_HORZ` identifier. -/
def ATOM_NET_WM_STATE_MAXIMIZED_HORZ : Int := 103

/-- Interned `_NET_WM_STATE_SHADED` identifier. -/
def ATOM_NET_WM_STATE_SHADED : Int := 104

/-- Decode a `data.l` value into the `Atom` enumeration by comparison with
the interned identifiers, as the `HandleNetWMState` loop does. -/
def decodeAtom (v : Int) : Atom :=
  if v = ATOM_NET_WM_STATE_STICKY then Atom.netWMStateSticky
  else if v = ATOM_NET_WM_STATE_MAXIMIZED_VERT then Atom.netWMStateMaxVert
  else if v = ATOM_NET_WM_STATE_MAXIMIZED_HORZ then Atom.netWMStateMaxHorz
  else if v = ATOM_NET_WM_STATE_SHADED then Atom.netWMStateShaded
  else Atom.otherAtom

/-- The `_WIN_STATE` branch of `HandleClientMessage` (event.c lines
608-629).  Modelled from the spec for the bit values (hint.h, outside
`src/`): `WIN_STATE_STICKY` is bit 0 and `WIN_STATE_HIDDEN` bit 4 of the
mask/flags pair. -/
def handleWinState (np : ClientNode) (mask flags : Int) :
    ClientNode × List Effect :=
  let r1 :=
    if testBitI mask 0 then
      if testBitI flags 0 then
        ({ np with status := SetClientSticky true np.status },
         [Effect.setClientSticky np.window true])
      else
        ({ np with status := SetClientSticky false np.status },
         [Effect.setClientSticky np.window false])
    else (np, [])
  if testBitI mask 4 then
    let np2 :=
      if testBitI flags 4 then
        { r1.1 with status := { r1.1.status with noList := true } }
      else
        { r1.1 with status := { r1.1.status with noList := false } }
    (np2, r1.2 ++ [Effect.updateTaskBar, Effect.updatePager])
  else r1

/-- The `_NET_WM_DESKTOP` branch of `HandleClientMessage` (event.c lines
660-674).  `SetClientDesktop` (client.c, outside `src/`) is modelled from
the spec: it reassigns the window to the given desktop.  A value of `-1`
(`~0L`) marks the window sticky; a valid index first cancels any
in-progress interactive operation via the controller, then clears the
sticky flag and reassigns; any other value is ignored (after the
controller cancel). -/
def handleNetWMDesktop (desktopCount : Int) (np : ClientNode) (v : Int) :
    ClientNode × List Effect :=
  if v = -1 then
    ({ np with status := SetClientSticky true np.status },
     [Effect.setClientSticky np.window true])
  else
    let eff0 :=
      if np.hasController then [Effect.controllerCancel false] else []
    if 0 ≤ v ∧ v < desktopCount then
      ({ np with
          status := { np.status with sticky := false }
          desktop := v },
       eff0 ++ [Effect.setClientDesktop np.window v])
    else (np, eff0)

/-- `HandleClientMessage` (event.c lines 598-720).  The border insets and
gravity delta consumed by the `_NET_MOVERESIZE_WINDOW` branch are passed
through as parameters, as in `HandleNetMoveResize`. -/
def HandleClientMessage (reg : List ClientNode) (rootWindow : Nat)
    (desktopCount : Int) (north south east west deltax deltay : Int)
    (ev : XClientMessageEvent) : List ClientNode × List Effect :=
  match FindClientByWindow reg ev.window with
  | some np =>
    match ev.mtype with
    | MsgType.winState =>
      let r := handleWinState np ev.l0 ev.l1
      (updateClient reg r.1, r.2)
    | MsgType.winLayer => (reg, [Effect.setClientLayer np.window ev.l0])
    | MsgType.wmChangeState =>
      let eff0 :=
        if np.hasController then [Effect.controllerCancel false] else []
      let eff :=
        if ev.l0 = 0 then [Effect.setClientWithdrawn np.window]
        else if ev.l0 = 3 then [Effect.minimizeClient np.window]
        else if ev.l0 = 1 then [Effect.restoreClient np.window]
        else []
      (reg, eff0 ++ eff)
    | MsgType.netActiveWindow =>
      (reg, [Effect.restoreClient np.window, Effect.focusClient np.window])
    | MsgType.netWMDesktop =>
      let r := handleNetWMDesktop desktopCount np ev.l0
      (updateClient reg r.1, r.2)
    | MsgType.netCloseWindow => (reg, [Effect.deleteClient np.window])
    | MsgType.netMoveResize =>
      let r := HandleNetMoveResize np ev.l0 ev.l1 ev.l2 ev.l3 ev.l4 north
        south east west deltax deltay
      (updateClient reg r.np, r.effects)
    | MsgType.netWMState =>
      let s2 := HandleNetWMState ev.l0 (decodeAtom ev.l1) (decodeAtom ev.l2)
        np.status
      (updateClient reg { np with status := s2 }, [])
    | _ => (reg, [])
  | none =>
    if ev.window = rootWindow then
      match ev.mtype with
      | MsgType.jwmRestart => (reg, [Effect.restart])
      | MsgType.jwmExit => (reg, [Effect.exitWM])
      | MsgType.netCurrentDesktop => (reg, [Effect.changeDesktop ev.l0])
      | _ => (reg, [])
    else if ev.mtype = MsgType.trayOpcode then
      (reg, [Effect.handleDockEvent])
    else (reg, [])

/-- C9: a desktop-assignment message with value `-1` marks the window
sticky; a valid desktop index first cancels any in-progress interactive
operation via the controller and then clears the sticky flag and
reassigns the desktop; any other value leaves the sticky flag and the
desktop assignment unchanged.  The `HandleClientMessage` dispatch routes
such a message to this branch. -/
theorem netWMDesktop_assignment (reg : List ClientNode) (rootWindow : Nat)
    (desktopCount north south east west deltax deltay : Int)
    (ev : XClientMessageEvent) (np : ClientNode) (v : Int)
    (hfind : FindClientByWindow reg ev.window = some np)
    (hmt : ev.mtype = MsgType.netWMDesktop)
    (hv : ev.l0 = v) :
    (v = -1 →
      (handleNetWMDesktop desktopCount np v).1.status.sticky = true
      ∧ (handleNetWMDesktop desktopCount np v).1.desktop = np.desktop)
    ∧ (0 ≤ v ∧ v < desktopCount →
      (handleNetWMDesktop desktopCount np v).1.status.sticky = false
      ∧ (handleNetWMDesktop desktopCount np v).1.desktop = v
      ∧ (handleNetWMDesktop desktopCount np v).2
        = (if np.hasController then [Effect.controllerCancel false]
           else []) ++ [Effect.setClientDesktop np.window v])
    ∧ (v ≠ -1 → ¬(0 ≤ v ∧ v < desktopCount) →
      (handleNetWMDesktop desktopCount np v).1.status.sticky
          = np.status.sticky
      ∧ (handleNetWMDesktop desktopCount np v).1.desktop = np.desktop
      ∧ (handleNetWMDesktop desktopCount np v).2
        = (if np.hasController then [Effect.controllerCancel false]
           else []))
    ∧ (HandleClientMessage reg rootWindow desktopCount north south east
        west deltax deltay ev
      = (updateClient reg (handleNetWMDesktop desktopCount np v).1,
         (handleNetWMDesktop desktopCount np v).2)) := by
  refine ⟨?_, ?_, ?_, ?_⟩
  · intro h
    simp [handleNetWMDesktop, h, SetClientSticky]
  · intro h
    have hne : v ≠ -1 := by omega
    simp [handleNetWMDesktop, hne, h]
  · intro hne h
    simp [handleNetWMDesktop, hne, h]
  · subst hv
    simp [HandleClientMessage, hfind, hmt]

/-- Sample client for the C9 witness (window 51, with an interactive
operation in progress, currently on desktop 0 and sticky). -/
def npC9 : ClientNode :=
  { window := 51, parent := 52, x := 0, y := 0, width := 300, height := 200,
    gravity := 1, desktop := 0, border := { outline := true, title := true },
    status := { sticky := true, maximized := false, shaded := false,
                mapped := true, noList := false },
    hasController := true }

/-- C9 witness: with 4 desktops, assigning window 51 to desktop 2 cancels
the controller, clears sticky and reassigns; the dispatch routes the
message to the branch. -/
theorem netWMDesktop_assignment_witness :
    (0 ≤ (2 : Int) ∧ (2 : Int) < 4 →
      (handleNetWMDesktop 4 npC9 2).1.status.sticky = false
      ∧ (handleNetWMDesktop 4 npC9 2).1.desktop = 2
      ∧ (handleNetWMDesktop 4 npC9 2).2
        = (if npC9.hasController then [Effect.controllerCancel false]
           else []) ++ [Effect.setClientDesktop npC9.window 2])
    ∧ (HandleClientMessage [npC9] 0 4 1 1 1 1 0 0
        { window := 51, mtype := MsgType.netWMDesktop, l0 := 2, l1 := 0,
          l2 := 0, l3 := 0, l4 := 0 }
      = (updateClient [npC9] (handleNetWMDesktop 4 npC9 2).1,
         (handleNetWMDesktop 4 npC9 2).2)) :=
  ⟨(netWMDesktop_assignment [npC9] 0 4 1 1 1 1 0 0
      { window := 51, mtype := MsgType.netWMDesktop, l0 := 2, l1 := 0,
        l2 := 0, l3 := 0, l4 := 0 } npC9 2 (by decide) rfl rfl).2.1,
   (netWMDesktop_assignment [npC9] 0 4 1 1 1 1 0 0
      { window := 51, mtype := MsgType.netWMDesktop, l0 := 2, l1 := 0,
        l2 := 0, l3 := 0, l4 := 0 } npC9 2 (by decide) rfl rfl).2.2.2⟩

/-! ## The event loop (`WaitForEvent`, event.c 63-165) -/

/-- The event kinds discriminated by the `switch(event->type)` of
`WaitForEvent`; `unknownEvent` stands for every other kind (including the
optional shape-extension event when absent). -/
inductive EventKind where
  | configureRequest
  | mapRequest
  | propertyNotify
  | clientMessage
  | unmapNotify
  | expose
  | colormapNotify
  | destroyNotify
  | selectionClear
  | resizeRequest
  | motionNotify
  | configureNotify
  | createNotify
  | mapNotify
  | reparentNotify
  | graphicsExpose
  | noExpose
  | unknownEvent
  deriving DecidableEq, Repr

/-- One iteration's inputs to the `WaitForEvent` loop body: the event's
kind, the return values of the handlers whose result the switch assigns to
`handled`, the fallback chain's answers for the event, and the value of
the global `shouldExit` flag when the loop condition is tested. -/
structure LoopIter where
  kind : EventKind
  propertyResult : Bool
  exposeResult : Bool
  destroyResult : Bool
  selectionResult : Bool
  resizeResult : Bool
  trayResult : Bool
  dialogResult : Bool
  swallowResult : Bool
  popupResult : Bool
  shouldExit : Bool
  deriving DecidableEq, Repr

/-- The `switch(event->type)` of `WaitForEvent` (event.c lines 88-148):
whether the event was claimed before the fallback chain runs. -/
def switchHandled (it : LoopIter) : Bool :=
  match it.kind with
  | EventKind.configureRequest => true
  | EventKind.mapRequest => true
  | EventKind.propertyNotify => it.propertyResult
  | EventKind.clientMessage => true
  | EventKind.unmapNotify => true
  | EventKind.expose => it.exposeResult
  | EventKind.colormapNotify => true
  | EventKind.destroyNotify => it.destroyResult
  | EventKind.selectionClear => it.selectionResult
  | EventKind.resizeRequest => it.resizeResult
  | EventKind.motionNotify => false
  | EventKind.configureNotify => true
  | EventKind.createNotify => true
  | EventKind.mapNotify => true
  | EventKind.reparentNotify => true
  | EventKind.graphicsExpose => true
  | EventKind.noExpose => true
  | EventKind.unknownEvent => false

/-- The fallback dispatch chain of `WaitForEvent` (event.c lines
150-161): tray, dialog, swallow, popup, each consulted only while the
event is still unclaimed. -/
def iterHandled (it : LoopIter) : Bool :=
  let handled := switchHandled it
  let handled := if !handled then it.trayResult else handled
  let handled := if !handled then it.dialogResult else handled
  let handled := if !handled then it.swallowResult else handled
  let handled := if !handled then it.popupResult else handled
  handled

/-- The `do { … } while(handled && !shouldExit)` loop of `WaitForEvent`
(event.c lines 63-165) over a stream of iteration inputs: returns the
iteration at which the loop exits (`none` when the stream runs dry while
the loop would still continue). -/
def WaitForEvent : List LoopIter → Option LoopIter
  | [] => none
  | it :: rest =>
    if iterHandled it && !it.shouldExit then WaitForEvent rest
    else some it

/-- A claimed (`ClientMessage`) iteration with the shutdown flag set. -/
def itC7stop : LoopIter :=
  { kind := EventKind.clientMessage, propertyResult := false,
    exposeResult := false, destroyResult := false,
    selectionResult := false, resizeResult := false, trayResult := false,
    dialogResult := false, swallowResult := false, popupResult := false,
    shouldExit := true }

/-- A second iteration behind `itC7stop`, never reached. -/
def itC7next : LoopIter :=
  { kind := EventKind.clientMessage, propertyResult := false,
    exposeResult := false, destroyResult := false,
    selectionResult := false, resizeResult := false, trayResult := false,
    dialogResult := false, swallowResult := false, popupResult := false,
    shouldExit := false }

/-- C7 counterexample: the loop condition is `handled && !shouldExit`, so
an iteration whose event *was* claimed (a `ClientMessage`, handled
unconditionally) but whose shutdown flag is set makes the loop terminate —
the claim instead requires the loop to continue whenever the event was
claimed, allowing termination only at shutdown-and-unclaimed. -/
theorem waitForEvent_stops_on_claimed_exit :
    iterHandled itC7stop = true ∧ itC7stop.shouldExit = true ∧
    WaitForEvent [itC7stop, itC7next] = some itC7stop := by
  decide

/-- C7 amended: the loop terminates exactly when the most recent event was
unclaimed by every handler (including the fallback chain) *or* the global
shutdown flag is set; it fetches the next event exactly when the event was
claimed and the shutdown flag is clear. -/
theorem waitForEvent_termination (it : LoopIter) (rest : List LoopIter) :
    ((iterHandled it = false ∨ it.shouldExit = true) →
      WaitForEvent (it :: rest) = some it)
    ∧ (iterHandled it = true ∧ it.shouldExit = false →
      WaitForEvent (it :: rest) = WaitForEvent rest) := by
  constructor
  · intro h; rcases h with h | h <;> simp [WaitForEvent, h]
  · intro h; simp [WaitForEvent, h.1, h.2]

/-- C7 witness: the amended termination theorem applied to a claimed
iteration with the shutdown flag set (the loop stops) and to a claimed
iteration with the flag clear (the loop continues). -/
theorem waitForEvent_termination_witness :
    (itC7stop.shouldExit = true ∧
      WaitForEvent [itC7stop, itC7next] = some itC7stop) ∧
    (iterHandled itC7next = true ∧ itC7next.shouldExit = false ∧
      WaitForEvent [itC7next] = WaitForEvent []) :=
  ⟨⟨by decide,
    (waitForEvent_termination itC7stop [itC7next]).1 (Or.inr (by decide))⟩,
   ⟨by decide, by decide,
    (waitForEvent_termination itC7next []).2 ⟨by decide, by decide⟩⟩⟩

end JWM
